import Mathlib

/-!
Verification of the AnalogVUMeter audio-to-needle pipeline.

This file gives a shallow embedding of the numeric core of the program:

* vuToAngleDeg and builtInDefaultScaleTable from src/VUMeterScale.cpp,
  over exact rationals (the C++ code computes with float; the embedding
  idealizes IEEE arithmetic as exact rational arithmetic).
* processInterleavedFloatAudioToVuDb from src/VuAudioDsp.cpp, together
  with the data model of src/VuAudioDsp.h (VuReferenceOptions,
  VuAudioDspState).  The float transcendental routines used by the code
  (std::sqrt, std::exp, std::log10) are modelled as an abstract parameter
  pack FloatOps; theorems that need analytic facts about them (for
  instance that exp of a nonpositive argument lies in the interval from 0
  to 1) take those facts as explicit hypotheses.
* the state-reset portion of AudioCapture::switchDevice from
  src/AudioCapture_linux.cpp and src/AudioCapture_macos.cpp.  The
  platform session plumbing (PulseAudio / AudioQueue setup, threads,
  device-name bookkeeping) is out of scope; only the meter-state fields
  the reset logic touches are modelled.
-/

/-! ## Scale mapper (src/VUMeterScale.cpp) -/

/-- VUMeterScaleTable: an ordered sequence of (level-in-dB, angle-in-degrees)
control points (a QVector of QPair of float in the source,
src/VUMeterScale.h line 11). -/
abbrev VUMeterScaleTable := List (ℚ × ℚ)

/-- The built-in calibration table (builtInDefaultScaleTable,
src/VUMeterScale.cpp lines 3-17). -/
def builtInDefaultScaleTable : VUMeterScaleTable :=
  [(-20, -47), (-10, -34), (-7, -25), (-6, -21), (-5, -16), (-4, -11),
   (-3, -5), (-2, 2), (-1, 9), (0, 18), (1, 27), (2, 38), (3, 47)]

/-- The segment-search loop of vuToAngleDeg (src/VUMeterScale.cpp
lines 33-43): walk adjacent pairs of the table; on the first pair with
v0 <= vuDb <= v1 return the linear interpolation; if no pair matches, fall
through to the supplied fallback (the last angle, line 45). -/
def findSegmentAngle (vuDb : ℚ) : List (ℚ × ℚ) → ℚ → ℚ
  | p0 :: p1 :: rest, fallback =>
      if p0.1 ≤ vuDb ∧ vuDb ≤ p1.1 then
        p0.2 + (vuDb - p0.1) / (p1.1 - p0.1) * (p1.2 - p0.2)
      else
        findSegmentAngle vuDb (p1 :: rest) fallback
  | _, fallback => fallback

/-- vuToAngleDeg (src/VUMeterScale.cpp lines 19-46): an empty table maps
to 0; clamp below the first control point to the first angle and above the
last control point to the last angle; otherwise search for a bracketing
segment and interpolate. -/
def vuToAngleDeg (vuDb : ℚ) (table : VUMeterScaleTable) : ℚ :=
  match table with
  | [] => 0
  | p :: rest =>
      if vuDb ≤ p.1 then p.2
      else if ((p :: rest).getLast (List.cons_ne_nil p rest)).1 ≤ vuDb then
        ((p :: rest).getLast (List.cons_ne_nil p rest)).2
      else
        findSegmentAngle vuDb (p :: rest)
          ((p :: rest).getLast (List.cons_ne_nil p rest)).2

/-! ## VU DSP engine (src/VuAudioDsp.h, src/VuAudioDsp.cpp) -/

/-- The float transcendental routines the DSP code calls (std::sqrt,
std::exp, std::log10), modelled as an abstract parameter pack over exact
rationals.  Theorems that depend on analytic facts about them take those
facts as explicit hypotheses. -/
structure FloatOps where
  sqrt : ℚ → ℚ
  exp : ℚ → ℚ
  log10 : ℚ → ℚ

/-- VuReferenceOptions (src/VuAudioDsp.h lines 5-11). -/
structure VuReferenceOptions where
  referenceDbfs : ℚ
  referenceDbfsOverride : Bool
  deviceType : ℤ

/-- VuAudioDspState (src/VuAudioDsp.h lines 13-21). -/
structure VuAudioDspState where
  prevL : ℚ
  prevR : ℚ
  rmsL_smooth : ℚ
  rmsR_smooth : ℚ
  meterAwake : Bool

/-- Modelled from the spec: the VUBallistics class is declared in
src/VuAudioDsp.h line 3 and used by the DSP engine, but its own source
file is not part of the repository snapshot.  Spec sections 3 and 4.1
describe it: it encapsulates the current displayed value together with
direction-dependent time constants (distinct rates for rising and falling
signal). -/
structure VUBallistics where
  value : ℚ
  tauAttack : ℚ
  tauRelease : ℚ

/-- Modelled from the spec (section 3): reset(value) snaps the displayed
value instantaneously, with no transient. -/
def VUBallistics.reset (b : VUBallistics) (v : ℚ) : VUBallistics :=
  { b with value := v }

/-- Modelled from the spec (section 4.1): process(target, dt) moves the
displayed value toward the target by a first-order exponential response
with a direction-dependent time constant, recomputed from exp(-dt/tau)
each call.  Returns the updated instance and the displayed value. -/
def VUBallistics.process (F : FloatOps) (b : VUBallistics) (target dt : ℚ) :
    VUBallistics × ℚ :=
  let tau := if b.value < target then b.tauAttack else b.tauRelease
  let a := F.exp (-(dt / tau))
  let v := target + (b.value - target) * a
  ({ b with value := v }, v)

/-- The running values of the per-buffer accumulation loop of
processInterleavedFloatAudioToVuDb (src/VuAudioDsp.cpp lines 27-43):
the previous raw sample per channel (state.prevL / state.prevR) and the
running sums of squares (sumL / sumR). -/
structure AccumState where
  prevL : ℚ
  prevR : ℚ
  sumL : ℚ
  sumR : ℚ

/-- One iteration of the accumulation loop (src/VuAudioDsp.cpp lines
30-43): channel extraction from the interleaved buffer, transient
pre-emphasis with coefficient 0.15 against the previous raw sample,
update of the previous raw samples, accumulation of squares. -/
def accumStep (data : ℕ → ℚ) (channels : ℕ) (acc : AccumState) (i : ℕ) : AccumState :=
  let rawL := data (i * channels + 0)
  let rawR := if 1 < channels then data (i * channels + 1) else rawL
  let l := rawL + 0.15 * (rawL - acc.prevL)
  let r := rawR + 0.15 * (rawR - acc.prevR)
  { prevL := rawL, prevR := rawR, sumL := acc.sumL + l * l, sumR := acc.sumR + r * r }

/-- The whole accumulation loop over frame indices 0..frames-1
(src/VuAudioDsp.cpp lines 27-43), starting from the previous samples held
in the DSP state and zero sums. -/
def accumBuffer (data : ℕ → ℚ) (frames channels : ℕ) (prevL prevR : ℚ) : AccumState :=
  (List.range frames).foldl (accumStep data channels) ⟨prevL, prevR, 0, 0⟩

/-- Reference-level resolution (src/VuAudioDsp.cpp lines 84-93): the
override value verbatim when referenceDbfsOverride is set, otherwise
-0.0 for deviceType 1 (microphone) and -14.0 for every other device
type (system output). -/
def effectiveRefDbfs (ref : VuReferenceOptions) : ℚ :=
  if ref.referenceDbfsOverride then ref.referenceDbfs
  else if ref.deviceType = 1 then -0.0
  else -14.0

/-- std::clamp(v, lo, hi) as called on lines 109-110: lo when v < lo,
hi when hi < v, otherwise v. -/
def stdClamp (v lo hi : ℚ) : ℚ :=
  if v < lo then lo else if hi < v then hi else v

/-- The result of one valid (guard-passing) DSP call.  Besides the two
outputs, the final DSP state and the two updated ballistics instances, the
trace records the values of the interesting locals of the source function
(rmsL/rmsR of lines 45-46, dt and alpha of lines 59-61, the gated
rmsX_vu of lines 66-76, dbfsX of lines 80-81 and targetVuX of lines
95-96) so that theorems can speak about them directly. -/
structure DspTrace where
  rmsL : ℚ
  rmsR : ℚ
  dt : ℚ
  alpha : ℚ
  rmsL_vu : ℚ
  rmsR_vu : ℚ
  dbfsL : ℚ
  dbfsR : ℚ
  targetVuL : ℚ
  targetVuR : ℚ
  outVuL : ℚ
  outVuR : ℚ
  state : VuAudioDspState
  ballisticsL : VUBallistics
  ballisticsR : VUBallistics

/-- The body of processInterleavedFloatAudioToVuDb after the guard
(src/VuAudioDsp.cpp lines 26-113), translated line by line: per-buffer
RMS of the pre-emphasized samples, wake-gated hard re-seed at threshold
0.002, exponential power smoothing with tau 0.020 and dt clamped to
0.050, noise-floor gate at 0.001 on the smoothed RMS, dBFS conversion
with epsilon 1e-12, reference normalization, the one-shot wake
transition, ballistics, and the final clamp. -/
def processValidBuffer (F : FloatOps) (data : ℕ → ℚ) (frames channels : ℕ)
    (sampleRate : ℚ) (ref : VuReferenceOptions)
    (ballisticsL ballisticsR : VUBallistics) (state : VuAudioDspState)
    (minVu maxVu : ℚ) : DspTrace :=
  let acc := accumBuffer data frames channels state.prevL state.prevR
  let rmsL := F.sqrt (acc.sumL / frames)
  let rmsR := F.sqrt (acc.sumR / frames)
  let wakeThreshold : ℚ := 0.002
  let s1L := if wakeThreshold < rmsL then rmsL * rmsL else state.rmsL_smooth
  let s1R := if wakeThreshold < rmsR then rmsR * rmsR else state.rmsR_smooth
  let vuTau : ℚ := 0.020
  let dt := min ((frames : ℚ) / sampleRate) 0.050
  let alpha := F.exp (-(dt / vuTau))
  let s2L := alpha * s1L + (1 - alpha) * (rmsL * rmsL)
  let s2R := alpha * s1R + (1 - alpha) * (rmsR * rmsR)
  let rmsL_vu0 := F.sqrt s2L
  let rmsR_vu0 := F.sqrt s2R
  let noiseFloor : ℚ := 0.001
  let rmsL_vu := if rmsL_vu0 < noiseFloor then 0 else rmsL_vu0
  let rmsR_vu := if rmsR_vu0 < noiseFloor then 0 else rmsR_vu0
  let eps : ℚ := 1e-12
  let dbfsL := 20 * F.log10 (max rmsL_vu eps)
  let dbfsR := 20 * F.log10 (max rmsR_vu eps)
  let refDb := effectiveRefDbfs ref
  let targetVuL := dbfsL - refDb
  let targetVuR := dbfsR - refDb
  let wake := state.meterAwake = false ∧ (0.002 < rmsL_vu ∨ 0.002 < rmsR_vu)
  let bL1 := if wake then ballisticsL.reset targetVuL else ballisticsL
  let bR1 := if wake then ballisticsR.reset targetVuR else ballisticsR
  let awake1 := if wake then true else state.meterAwake
  let pL := bL1.process F targetVuL dt
  let pR := bR1.process F targetVuR dt
  let vuL := stdClamp pL.2 minVu maxVu
  let vuR := stdClamp pR.2 minVu maxVu
  { rmsL := rmsL, rmsR := rmsR, dt := dt, alpha := alpha,
    rmsL_vu := rmsL_vu, rmsR_vu := rmsR_vu, dbfsL := dbfsL, dbfsR := dbfsR,
    targetVuL := targetVuL, targetVuR := targetVuR,
    outVuL := vuL, outVuR := vuR,
    state := { prevL := acc.prevL, prevR := acc.prevR,
               rmsL_smooth := s2L, rmsR_smooth := s2R, meterAwake := awake1 },
    ballisticsL := pL.1, ballisticsR := pR.1 }

/-- What one call to the C++ function leaves behind: the two outputs
written through outVuL/outVuR and the by-reference state and ballistics
arguments. -/
structure DspResult where
  outVuL : ℚ
  outVuR : ℚ
  state : VuAudioDspState
  ballisticsL : VUBallistics
  ballisticsR : VUBallistics

/-- processInterleavedFloatAudioToVuDb (src/VuAudioDsp.cpp lines 8-114).
The data pointer is modelled as an Option of an index function; the guard
of lines 20-24 returns (minVu, minVu) with state and ballistics untouched,
otherwise the valid-buffer body runs. -/
def processInterleavedFloatAudioToVuDb (F : FloatOps) (data : Option (ℕ → ℚ))
    (frames channels : ℕ) (sampleRate : ℚ) (ref : VuReferenceOptions)
    (ballisticsL ballisticsR : VUBallistics) (state : VuAudioDspState)
    (minVu maxVu : ℚ) : DspResult :=
  match data with
  | none => ⟨minVu, minVu, state, ballisticsL, ballisticsR⟩
  | some d =>
      if frames = 0 ∨ channels = 0 ∨ sampleRate ≤ 0 then
        ⟨minVu, minVu, state, ballisticsL, ballisticsR⟩
      else
        let t := processValidBuffer F d frames channels sampleRate ref
          ballisticsL ballisticsR state minVu maxVu
        ⟨t.outVuL, t.outVuR, t.state, t.ballisticsL, t.ballisticsR⟩

/-! ## Capture-session device switch (src/AudioCapture_linux.cpp,
src/AudioCapture_macos.cpp) -/

/-- kAudioFloorVu (src/AudioCapture_linux.cpp line 15). -/
def kAudioFloorVu : ℚ := -96

/-- kMinVu of the macOS variant (src/AudioCapture_macos.cpp line 12). -/
def macosKMinVu : ℚ := -22

/-- The meter-state fields of an AudioCapture session that the
switchDevice reset logic touches: the two ballistics instances, the
published VU readings (atomics leftVuDb_/rightVuDb_) and the DSP state
(the dspState_ pointer on Linux; the separate members rmsL_smooth_,
rmsR_smooth_, prevL_, prevR_, meterAwake_ on macOS).  The platform
session plumbing is out of scope. -/
structure CaptureSessionMeterState where
  ballisticsL : VUBallistics
  ballisticsR : VUBallistics
  leftVuDb : ℚ
  rightVuDb : ℚ
  dspState : VuAudioDspState

/-- The state-reset portion of AudioCapture::switchDevice in the Linux
variant (src/AudioCapture_linux.cpp lines 227-242): resets the two
ballistics instances and the two published readings to kAudioFloorVu.
The dspState_ member is not touched by this function (nor by stop or
start). -/
def linuxSwitchDeviceReset (s : CaptureSessionMeterState) : CaptureSessionMeterState :=
  { s with ballisticsL := s.ballisticsL.reset kAudioFloorVu,
           ballisticsR := s.ballisticsR.reset kAudioFloorVu,
           leftVuDb := kAudioFloorVu,
           rightVuDb := kAudioFloorVu }

/-- The state-reset portion of AudioCapture::switchDevice in the macOS
variant (src/AudioCapture_macos.cpp lines 170-190): zeroes the smoothed
RMS values and the previous samples, clears meterAwake_, and resets the
ballistics and published readings to kMinVu. -/
def macosSwitchDeviceReset (s : CaptureSessionMeterState) : CaptureSessionMeterState :=
  { s with dspState := { prevL := 0, prevR := 0, rmsL_smooth := 0, rmsR_smooth := 0,
                         meterAwake := false },
           ballisticsL := s.ballisticsL.reset macosKMinVu,
           ballisticsR := s.ballisticsR.reset macosKMinVu,
           leftVuDb := macosKMinVu,
           rightVuDb := macosKMinVu }

/-! ## Concrete instances used by the witnesses -/

/-- A constant full-scale buffer: every interleaved slot holds 1.0. -/
def constOneBuffer : ℕ → ℚ := fun _ => 1

/-- A concrete stand-in for the float transcendental routines, used to
instantiate witnesses: its exp always returns one half (which lies in the
interval from 0 to 1, as exp of a nonpositive argument does), and its
sqrt is nonnegative. -/
def sampleOps : FloatOps := ⟨fun x => max x 0, fun _ => 1/2, fun _ => 0⟩

/-- Default reference options: referenceDbfs -18, no override, system
output (the defaults of src/VuAudioDsp.h lines 5-11). -/
def sampleRef : VuReferenceOptions := ⟨-18, false, 0⟩

/-- A ballistics instance resting at the -96 floor. -/
def sampleBallistics : VUBallistics := ⟨-96, 1/10, 3/10⟩

/-- The zero-initialized DSP state (the default member values of
src/VuAudioDsp.h lines 13-21). -/
def zeroState : VuAudioDspState := ⟨0, 0, 0, 0, false⟩

/-- A session that has been running on a device: the meter is awake, the
smoothed RMS values and previous samples are nonzero. -/
def awakeSession : CaptureSessionMeterState :=
  { ballisticsL := ⟨-3, 1/10, 3/10⟩, ballisticsR := ⟨-5, 1/10, 3/10⟩,
    leftVuDb := -3, rightVuDb := -5,
    dspState := ⟨1/10, 1/5, 3/100, 1/25, true⟩ }

/-! ## Helper lemmas -/

/-- If the query value lies strictly between the first and the last level
of the table, the segment-search loop finds a bracketing adjacent pair
and returns its linear interpolation. -/
lemma findSegmentAngle_exists (v : ℚ) :
    ∀ (l : List (ℚ × ℚ)) (fb : ℚ) (hne : l ≠ []),
      (l.head hne).1 < v → v < (l.getLast hne).1 →
      ∃ pq ∈ l.zip l.tail, pq.1.1 ≤ v ∧ v ≤ pq.2.1 ∧
        findSegmentAngle v l fb =
          pq.1.2 + (v - pq.1.1) / (pq.2.1 - pq.1.1) * (pq.2.2 - pq.1.2)
  | [], fb, hne, _, _ => absurd rfl hne
  | [p], fb, hne, h1, h2 => absurd (h1.trans h2) (lt_irrefl p.1)
  | p0 :: p1 :: rest, fb, hne, h1, h2 => by
      by_cases hb : p0.1 ≤ v ∧ v ≤ p1.1
      · refine ⟨(p0, p1), ?_, hb.1, hb.2, ?_⟩
        · simp [List.zip]
        · simp [findSegmentAngle, hb]
      · have hp1 : p1.1 < v := by
          rcases not_and_or.mp hb with h | h
          · exact absurd (le_of_lt h1) h
          · exact lt_of_not_le h
        have hlast : v < ((p1 :: rest).getLast (List.cons_ne_nil p1 rest)).1 := by
          rwa [List.getLast_cons (List.cons_ne_nil p1 rest)] at h2
        obtain ⟨pq, hmem, hle, hge, heq⟩ :=
          findSegmentAngle_exists v (p1 :: rest) fb (List.cons_ne_nil p1 rest) hp1 hlast
        refine ⟨pq, ?_, hle, hge, ?_⟩
        · exact List.mem_cons_of_mem _ hmem
        · rw [show findSegmentAngle v (p0 :: p1 :: rest) fb
              = findSegmentAngle v (p1 :: rest) fb from by simp [findSegmentAngle, hb]]
          exact heq

/-- The segment-search loop either falls through to its fallback or
returns the interpolation of some bracketing adjacent pair. -/
lemma findSegmentAngle_cases (v : ℚ) :
    ∀ (l : List (ℚ × ℚ)) (fb : ℚ),
      findSegmentAngle v l fb = fb ∨
      ∃ pq ∈ l.zip l.tail, pq.1.1 ≤ v ∧ v ≤ pq.2.1 ∧
        findSegmentAngle v l fb =
          pq.1.2 + (v - pq.1.1) / (pq.2.1 - pq.1.1) * (pq.2.2 - pq.1.2)
  | [], fb => Or.inl rfl
  | [p], fb => Or.inl rfl
  | p0 :: p1 :: rest, fb => by
      by_cases hb : p0.1 ≤ v ∧ v ≤ p1.1
      · refine Or.inr ⟨(p0, p1), by simp [List.zip], hb.1, hb.2, by simp [findSegmentAngle, hb]⟩
      · have hstep : findSegmentAngle v (p0 :: p1 :: rest) fb
            = findSegmentAngle v (p1 :: rest) fb := by simp [findSegmentAngle, hb]
        rcases findSegmentAngle_cases v (p1 :: rest) fb with h | ⟨pq, hmem, hle, hge, heq⟩
        · exact Or.inl (hstep.trans h)
        · exact Or.inr ⟨pq, List.mem_cons_of_mem _ hmem, hle, hge, hstep.trans heq⟩

/-- In a strictly ascending table the head level is below the last level
of any nonempty tail. -/
lemma chain_head_lt_getLast :
    ∀ (rest : List (ℚ × ℚ)) (p : ℚ × ℚ),
      List.Chain' (fun a b => a.1 < b.1) (p :: rest) → (hne : rest ≠ []) →
      p.1 < (rest.getLast hne).1
  | [], _, _, hne => absurd rfl hne
  | q :: rest2, p, hch, hne => by
      rw [List.chain'_cons] at hch
      cases rest2 with
      | nil => exact hch.1
      | cons r rest3 =>
          have := chain_head_lt_getLast (r :: rest3) q hch.2 (List.cons_ne_nil r rest3)
          rw [List.getLast_cons (List.cons_ne_nil r rest3)]
          exact hch.1.trans this

/-- std::clamp keeps its result inside the requested interval whenever
the interval is nonempty. -/
lemma stdClamp_le (v lo hi : ℚ) (h : lo ≤ hi) :
    lo ≤ stdClamp v lo hi ∧ stdClamp v lo hi ≤ hi := by
  unfold stdClamp
  split_ifs with h1 h2
  · exact ⟨le_refl lo, h⟩
  · exact ⟨h, le_refl hi⟩
  · exact ⟨le_of_not_lt h1, le_of_not_lt h2⟩

/-- When the guard does not fire, the wrapper projects the valid-buffer
trace. -/
lemma wrapper_valid_eq (F : FloatOps) (d : ℕ → ℚ) (frames channels : ℕ)
    (sampleRate : ℚ) (ref : VuReferenceOptions) (bL bR : VUBallistics)
    (st : VuAudioDspState) (minVu maxVu : ℚ)
    (hg : ¬ (frames = 0 ∨ channels = 0 ∨ sampleRate ≤ 0)) :
    processInterleavedFloatAudioToVuDb F (some d) frames channels sampleRate ref bL bR st minVu maxVu
      = ⟨(processValidBuffer F d frames channels sampleRate ref bL bR st minVu maxVu).outVuL,
         (processValidBuffer F d frames channels sampleRate ref bL bR st minVu maxVu).outVuR,
         (processValidBuffer F d frames channels sampleRate ref bL bR st minVu maxVu).state,
         (processValidBuffer F d frames channels sampleRate ref bL bR st minVu maxVu).ballisticsL,
         (processValidBuffer F d frames channels sampleRate ref bL bR st minVu maxVu).ballisticsR⟩ := by
  simp [processInterleavedFloatAudioToVuDb, hg]

/-- Processing right after a reset to the target returns exactly the
target: the first-order response has a zero gap to close. -/
lemma process_after_reset (F : FloatOps) (b : VUBallistics) (v dt : ℚ) :
    ((b.reset v).process F v dt).1.value = v ∧ ((b.reset v).process F v dt).2 = v := by
  constructor <;> simp [VUBallistics.reset, VUBallistics.process]

/-- meterAwake is monotone across one call: once true it stays true. -/
lemma meterAwake_mono (F : FloatOps) (data : Option (ℕ → ℚ)) (frames channels : ℕ)
    (sampleRate : ℚ) (ref : VuReferenceOptions) (bL bR : VUBallistics)
    (st : VuAudioDspState) (minVu maxVu : ℚ) (hm : st.meterAwake = true) :
    (processInterleavedFloatAudioToVuDb F data frames channels sampleRate ref bL bR st minVu maxVu).state.meterAwake = true := by
  cases data with
  | none => exact hm
  | some d =>
      by_cases hg : frames = 0 ∨ channels = 0 ∨ sampleRate ≤ 0
      · simp [processInterleavedFloatAudioToVuDb, hg]
        exact hm
      · rw [wrapper_valid_eq F d frames channels sampleRate ref bL bR st minVu maxVu hg]
        show (processValidBuffer F d frames channels sampleRate ref bL bR st minVu maxVu).state.meterAwake = true
        have hrfl : (processValidBuffer F d frames channels sampleRate ref bL bR st minVu maxVu).state.meterAwake
            = if (st.meterAwake = false ∧
                  (0.002 < (processValidBuffer F d frames channels sampleRate ref bL bR st minVu maxVu).rmsL_vu
                   ∨ 0.002 < (processValidBuffer F d frames channels sampleRate ref bL bR st minVu maxVu).rmsR_vu))
              then true else st.meterAwake := rfl
        rw [hrfl]
        split_ifs with hw
        · rfl
        · exact hm

/-- When fed a single channel, the accumulation loop keeps the left and
right running values identical. -/
lemma accum_symm (d : ℕ → ℚ) :
    ∀ (l : List ℕ) (acc : AccumState), acc.prevL = acc.prevR → acc.sumL = acc.sumR →
      (l.foldl (accumStep d 1) acc).prevL = (l.foldl (accumStep d 1) acc).prevR
      ∧ (l.foldl (accumStep d 1) acc).sumL = (l.foldl (accumStep d 1) acc).sumR
  | [], _, hp, hs => ⟨hp, hs⟩
  | i :: t, acc, hp, hs => by
      show ((t.foldl (accumStep d 1) (accumStep d 1 acc i)).prevL = _) ∧ _
      apply accum_symm d t
      · simp [accumStep]
      · simp [accumStep, hp, hs]

/-! ## Claims -/

/-- Claim C1: for every call to processInterleavedFloatAudioToVuDb with a
non-null buffer, frames > 0, channels > 0 and sampleRate > 0, and with
minVu <= maxVu, both output values outVuL and outVuR lie within the
interval from minVu to maxVu, for arbitrary sample amplitudes and any
reference options. -/
theorem C1_outputs_clamped (F : FloatOps) (d : ℕ → ℚ) (frames channels : ℕ) (sampleRate : ℚ)
    (ref : VuReferenceOptions) (bL bR : VUBallistics) (st : VuAudioDspState)
    (minVu maxVu : ℚ)
    (h1 : frames ≠ 0) (h2 : channels ≠ 0) (h3 : 0 < sampleRate) (h4 : minVu ≤ maxVu) :
    (minVu ≤ (processInterleavedFloatAudioToVuDb F (some d) frames channels sampleRate ref bL bR st minVu maxVu).outVuL
      ∧ (processInterleavedFloatAudioToVuDb F (some d) frames channels sampleRate ref bL bR st minVu maxVu).outVuL ≤ maxVu)
    ∧ (minVu ≤ (processInterleavedFloatAudioToVuDb F (some d) frames channels sampleRate ref bL bR st minVu maxVu).outVuR
      ∧ (processInterleavedFloatAudioToVuDb F (some d) frames channels sampleRate ref bL bR st minVu maxVu).outVuR ≤ maxVu) := by
  have hg : ¬ (frames = 0 ∨ channels = 0 ∨ sampleRate ≤ 0) := by
    rintro (h | h | h)
    · exact h1 h
    · exact h2 h
    · exact absurd h (not_le.mpr h3)
  rw [wrapper_valid_eq F d frames channels sampleRate ref bL bR st minVu maxVu hg]
  exact ⟨stdClamp_le _ _ _ h4, stdClamp_le _ _ _ h4⟩

/-- Claim C1, witness: a concrete valid call with range -96..6 stays in
range. -/
theorem C1_outputs_clamped_witness :
    ((-96 : ℚ) ≤ (processInterleavedFloatAudioToVuDb sampleOps (some constOneBuffer) 1 1 1 sampleRef
        sampleBallistics sampleBallistics zeroState (-96) 6).outVuL
      ∧ (processInterleavedFloatAudioToVuDb sampleOps (some constOneBuffer) 1 1 1 sampleRef
          sampleBallistics sampleBallistics zeroState (-96) 6).outVuL ≤ 6)
    ∧ ((-96 : ℚ) ≤ (processInterleavedFloatAudioToVuDb sampleOps (some constOneBuffer) 1 1 1 sampleRef
        sampleBallistics sampleBallistics zeroState (-96) 6).outVuR
      ∧ (processInterleavedFloatAudioToVuDb sampleOps (some constOneBuffer) 1 1 1 sampleRef
          sampleBallistics sampleBallistics zeroState (-96) 6).outVuR ≤ 6) :=
  C1_outputs_clamped sampleOps constOneBuffer 1 1 1 sampleRef sampleBallistics sampleBallistics
    zeroState (-96) 6 (by norm_num) (by norm_num) (by norm_num) (by norm_num)

/-- Claim C2: if data is null, or frames = 0, or channels = 0, or
sampleRate is nonpositive, then processInterleavedFloatAudioToVuDb sets
both outputs to minVu and returns with the DspState and both ballistics
instances completely unchanged. -/
theorem C2_guard_no_mutation (F : FloatOps) (data : Option (ℕ → ℚ)) (frames channels : ℕ)
    (sampleRate : ℚ) (ref : VuReferenceOptions) (bL bR : VUBallistics)
    (st : VuAudioDspState) (minVu maxVu : ℚ)
    (h : data = none ∨ frames = 0 ∨ channels = 0 ∨ sampleRate ≤ 0) :
    processInterleavedFloatAudioToVuDb F data frames channels sampleRate ref bL bR st minVu maxVu
      = ⟨minVu, minVu, st, bL, bR⟩ := by
  cases data with
  | none => rfl
  | some d =>
      rcases h with h | h
      · exact absurd h (by simp)
      · simp [processInterleavedFloatAudioToVuDb, h]

/-- Claim C2, witness: the guard fires on a null buffer. -/
theorem C2_guard_no_mutation_witness :
    processInterleavedFloatAudioToVuDb sampleOps none 1 2 48000 sampleRef
        sampleBallistics sampleBallistics zeroState (-96) 6
      = ⟨-96, -96, zeroState, sampleBallistics, sampleBallistics⟩ :=
  C2_guard_no_mutation sampleOps none 1 2 48000 sampleRef sampleBallistics sampleBallistics
    zeroState (-96) 6 (Or.inl rfl)

/-- Claim C3: for every valid call, the post-call smoothed power per
channel equals alpha * sSeed + (1 - alpha) * rms^2, where rms is the
per-buffer RMS of the pre-emphasized samples, sSeed is rms^2 if rms
exceeds the wake threshold 0.002 and the prior smoothed power otherwise
(the re-seed happens before the smoothing step), alpha = exp(-dt/0.020),
and dt = min(frames/sampleRate, 0.050). -/
theorem C3_smoothed_power_update (F : FloatOps) (d : ℕ → ℚ) (frames channels : ℕ) (sampleRate : ℚ)
    (ref : VuReferenceOptions) (bL bR : VUBallistics) (st : VuAudioDspState)
    (minVu maxVu : ℚ)
    (h1 : frames ≠ 0) (h2 : channels ≠ 0) (h3 : 0 < sampleRate) :
    ((processInterleavedFloatAudioToVuDb F (some d) frames channels sampleRate ref bL bR st minVu maxVu).state.rmsL_smooth
      = (let rms := F.sqrt ((accumBuffer d frames channels st.prevL st.prevR).sumL / frames)
         let sSeed := if 0.002 < rms then rms * rms else st.rmsL_smooth
         let dt := min ((frames : ℚ) / sampleRate) 0.050
         let alpha := F.exp (-(dt / 0.020))
         alpha * sSeed + (1 - alpha) * (rms * rms)))
    ∧ ((processInterleavedFloatAudioToVuDb F (some d) frames channels sampleRate ref bL bR st minVu maxVu).state.rmsR_smooth
      = (let rms := F.sqrt ((accumBuffer d frames channels st.prevL st.prevR).sumR / frames)
         let sSeed := if 0.002 < rms then rms * rms else st.rmsR_smooth
         let dt := min ((frames : ℚ) / sampleRate) 0.050
         let alpha := F.exp (-(dt / 0.020))
         alpha * sSeed + (1 - alpha) * (rms * rms))) := by
  have hg : ¬ (frames = 0 ∨ channels = 0 ∨ sampleRate ≤ 0) := by
    rintro (h | h | h)
    · exact h1 h
    · exact h2 h
    · exact absurd h (not_le.mpr h3)
  rw [wrapper_valid_eq F d frames channels sampleRate ref bL bR st minVu maxVu hg]
  exact ⟨rfl, rfl⟩

/-- Claim C3, witness: the update law at a concrete valid call. -/
theorem C3_smoothed_power_update_witness :
    (processInterleavedFloatAudioToVuDb sampleOps (some constOneBuffer) 1 1 1 sampleRef
        sampleBallistics sampleBallistics zeroState (-96) 6).state.rmsL_smooth
      = (let rms := sampleOps.sqrt ((accumBuffer constOneBuffer 1 1 zeroState.prevL zeroState.prevR).sumL / ((1 : ℕ) : ℚ))
         let sSeed := if 0.002 < rms then rms * rms else zeroState.rmsL_smooth
         let dt := min (((1 : ℕ) : ℚ) / 1) 0.050
         let alpha := sampleOps.exp (-(dt / 0.020))
         alpha * sSeed + (1 - alpha) * (rms * rms)) :=
  (C3_smoothed_power_update sampleOps constOneBuffer 1 1 1 sampleRef sampleBallistics
    sampleBallistics zeroState (-96) 6 (by norm_num) (by norm_num) (by norm_num)).1

/-- Claim C4: the effective reference level is ref.referenceDbfs verbatim
when ref.referenceDbfsOverride is true, 0.0 dBFS when the override is
false and ref.deviceType = 1 (microphone), and -14.0 dBFS when the
override is false and ref.deviceType is any other value; the
pre-ballistics target per channel equals dbfs minus this effective
reference. -/
theorem C4_reference_selection (F : FloatOps) (d : ℕ → ℚ) (frames channels : ℕ) (sampleRate : ℚ)
    (ref : VuReferenceOptions) (bL bR : VUBallistics) (st : VuAudioDspState)
    (minVu maxVu : ℚ) :
    (ref.referenceDbfsOverride = true → effectiveRefDbfs ref = ref.referenceDbfs)
    ∧ (ref.referenceDbfsOverride = false → ref.deviceType = 1 → effectiveRefDbfs ref = 0)
    ∧ (ref.referenceDbfsOverride = false → ref.deviceType ≠ 1 → effectiveRefDbfs ref = -14)
    ∧ (processValidBuffer F d frames channels sampleRate ref bL bR st minVu maxVu).targetVuL
        = (processValidBuffer F d frames channels sampleRate ref bL bR st minVu maxVu).dbfsL
          - effectiveRefDbfs ref
    ∧ (processValidBuffer F d frames channels sampleRate ref bL bR st minVu maxVu).targetVuR
        = (processValidBuffer F d frames channels sampleRate ref bL bR st minVu maxVu).dbfsR
          - effectiveRefDbfs ref := by
  refine ⟨?_, ?_, ?_, rfl, rfl⟩
  · intro h; simp [effectiveRefDbfs, h]
  · intro h h2; simp [effectiveRefDbfs, h, h2]; norm_num
  · intro h h2; simp [effectiveRefDbfs, h, h2]; norm_num

/-- Claim C4, witness: the three reference cases at concrete options, and
the target equation at a concrete call. -/
theorem C4_reference_selection_witness :
    effectiveRefDbfs ⟨-7, true, 0⟩ = -7
    ∧ effectiveRefDbfs ⟨-18, false, 1⟩ = 0
    ∧ effectiveRefDbfs ⟨-18, false, 0⟩ = -14
    ∧ (processValidBuffer sampleOps constOneBuffer 1 1 1 sampleRef
        sampleBallistics sampleBallistics zeroState (-96) 6).targetVuL
      = (processValidBuffer sampleOps constOneBuffer 1 1 1 sampleRef
          sampleBallistics sampleBallistics zeroState (-96) 6).dbfsL - effectiveRefDbfs sampleRef :=
  ⟨(C4_reference_selection sampleOps constOneBuffer 1 1 1 ⟨-7, true, 0⟩ sampleBallistics
      sampleBallistics zeroState (-96) 6).1 rfl,
   (C4_reference_selection sampleOps constOneBuffer 1 1 1 ⟨-18, false, 1⟩ sampleBallistics
      sampleBallistics zeroState (-96) 6).2.1 rfl rfl,
   (C4_reference_selection sampleOps constOneBuffer 1 1 1 ⟨-18, false, 0⟩ sampleBallistics
      sampleBallistics zeroState (-96) 6).2.2.1 rfl (by norm_num),
   (C4_reference_selection sampleOps constOneBuffer 1 1 1 sampleRef sampleBallistics
      sampleBallistics zeroState (-96) 6).2.2.2.1⟩

/-- Claim C5: vuToAngleDeg returns 0 for an empty table; for every
non-empty table sorted ascending by level it returns the first angle when
the input is at or below the first level, the last angle when the input
is at or above the last level, and otherwise the linear interpolation
a0 + (vuDb - v0)/(v1 - v0) * (a1 - a0) over the bracketing segment; and
for the table [(-20,-47),(0,18),(3,47)] it maps -30 to -47, 30 to 47,
0 to 18, and -10 to -14.5. -/
theorem C5_scale_mapper (v : ℚ) (table : VUMeterScaleTable) (p : ℚ × ℚ) (rest : List (ℚ × ℚ))
    (htab : table = p :: rest)
    (hsort : List.Chain' (fun a b => a.1 < b.1) table) :
    (vuToAngleDeg v ([] : VUMeterScaleTable) = 0)
    ∧ (v ≤ p.1 → vuToAngleDeg v table = p.2)
    ∧ (((p :: rest).getLast (List.cons_ne_nil p rest)).1 ≤ v →
        vuToAngleDeg v table = ((p :: rest).getLast (List.cons_ne_nil p rest)).2)
    ∧ (p.1 < v → v < ((p :: rest).getLast (List.cons_ne_nil p rest)).1 →
        ∃ pq ∈ table.zip table.tail, pq.1.1 ≤ v ∧ v ≤ pq.2.1 ∧
          vuToAngleDeg v table =
            pq.1.2 + (v - pq.1.1) / (pq.2.1 - pq.1.1) * (pq.2.2 - pq.1.2))
    ∧ vuToAngleDeg (-30) [(-20, -47), (0, 18), (3, 47)] = -47
    ∧ vuToAngleDeg 30 [(-20, -47), (0, 18), (3, 47)] = 47
    ∧ vuToAngleDeg 0 [(-20, -47), (0, 18), (3, 47)] = 18
    ∧ vuToAngleDeg (-10) [(-20, -47), (0, 18), (3, 47)] = -14.5 := by
  subst htab
  refine ⟨rfl, ?_, ?_, ?_, ?_, ?_, ?_, ?_⟩
  · intro hle
    simp [vuToAngleDeg, hle]
  · intro hge
    by_cases hle : v ≤ p.1
    · cases rest with
      | nil => simp [vuToAngleDeg, hle]
      | cons q rest2 =>
          have hlt := chain_head_lt_getLast (q :: rest2) p hsort (List.cons_ne_nil q rest2)
          rw [List.getLast_cons (List.cons_ne_nil q rest2)] at hge
          exact absurd (le_trans hge hle) (not_le.mpr hlt)
    · simp [vuToAngleDeg, hle, hge]
  · intro h1 h2
    have hle : ¬ v ≤ p.1 := not_le.mpr h1
    have hge : ¬ ((p :: rest).getLast (List.cons_ne_nil p rest)).1 ≤ v := not_le.mpr h2
    obtain ⟨pq, hmem, ha, hb, heq⟩ := findSegmentAngle_exists v (p :: rest)
      (((p :: rest).getLast (List.cons_ne_nil p rest)).2) (List.cons_ne_nil p rest) h1 h2
    refine ⟨pq, hmem, ha, hb, ?_⟩
    rw [show vuToAngleDeg v (p :: rest) = findSegmentAngle v (p :: rest)
        (((p :: rest).getLast (List.cons_ne_nil p rest)).2) from by simp [vuToAngleDeg, hle, hge]]
    exact heq
  · norm_num [vuToAngleDeg, findSegmentAngle]
  · norm_num [vuToAngleDeg, findSegmentAngle]
  · norm_num [vuToAngleDeg, findSegmentAngle]
  · norm_num [vuToAngleDeg, findSegmentAngle]

/-- Claim C5, witness: the claimed interpolated value at -10 on the
three-point table, obtained by instantiating the theorem at that sorted
table. -/
theorem C5_scale_mapper_witness :
    vuToAngleDeg (-10) [(-20, -47), (0, 18), (3, 47)] = -14.5 :=
  (C5_scale_mapper (-10) [(-20, -47), (0, 18), (3, 47)] (-20, -47) [(0, 18), (3, 47)] rfl
    (by norm_num [List.chain'_cons])).2.2.2.2.2.2.2

/-- Claim C6, code-bug evaluation: on the Linux variant, switchDevice
leaves the DSP state (including meterAwake) completely unchanged, so a
previously awake session stays awake and the wake transition is not
re-armed; the macOS variant resets the DSP state to its zero-initialized
value, and both variants do reset the ballistics and published readings
to the floor value. -/
theorem C6_linux_switchDevice_keeps_dsp_state :
    (linuxSwitchDeviceReset awakeSession).dspState = awakeSession.dspState
    ∧ awakeSession.dspState.meterAwake = true
    ∧ (linuxSwitchDeviceReset awakeSession).dspState.meterAwake = true
    ∧ (linuxSwitchDeviceReset awakeSession).dspState.rmsL_smooth = 3/100
    ∧ (∀ s : CaptureSessionMeterState,
        (macosSwitchDeviceReset s).dspState = ⟨0, 0, 0, 0, false⟩
        ∧ (macosSwitchDeviceReset s).ballisticsL.value = macosKMinVu
        ∧ (macosSwitchDeviceReset s).ballisticsR.value = macosKMinVu
        ∧ (macosSwitchDeviceReset s).leftVuDb = macosKMinVu
        ∧ (macosSwitchDeviceReset s).rightVuDb = macosKMinVu)
    ∧ (∀ s : CaptureSessionMeterState,
        (linuxSwitchDeviceReset s).ballisticsL.value = kAudioFloorVu
        ∧ (linuxSwitchDeviceReset s).ballisticsR.value = kAudioFloorVu
        ∧ (linuxSwitchDeviceReset s).leftVuDb = kAudioFloorVu
        ∧ (linuxSwitchDeviceReset s).rightVuDb = kAudioFloorVu) :=
  ⟨rfl, rfl, rfl, rfl, fun _ => ⟨rfl, rfl, rfl, rfl, rfl⟩, fun _ => ⟨rfl, rfl, rfl, rfl⟩⟩

/-- Claim C7: within processInterleavedFloatAudioToVuDb, meterAwake never
transitions from true to false; and on any valid call where meterAwake is
false and either channel gated smoothed RMS exceeds 0.002, both
ballistics instances are reset to their respective target VU values (so
their displayed value after the call is exactly the target) and
meterAwake is set true. -/
theorem C7_wake_one_shot (F : FloatOps) (d : ℕ → ℚ) (frames channels : ℕ) (sampleRate : ℚ)
    (ref : VuReferenceOptions) (bL bR : VUBallistics) (st : VuAudioDspState)
    (minVu maxVu : ℚ)
    (hawake : st.meterAwake = false)
    (hgate : 0.002 < (processValidBuffer F d frames channels sampleRate ref bL bR st minVu maxVu).rmsL_vu
      ∨ 0.002 < (processValidBuffer F d frames channels sampleRate ref bL bR st minVu maxVu).rmsR_vu) :
    (processValidBuffer F d frames channels sampleRate ref bL bR st minVu maxVu).state.meterAwake = true
    ∧ (processValidBuffer F d frames channels sampleRate ref bL bR st minVu maxVu).ballisticsL.value
        = (processValidBuffer F d frames channels sampleRate ref bL bR st minVu maxVu).targetVuL
    ∧ (processValidBuffer F d frames channels sampleRate ref bL bR st minVu maxVu).ballisticsR.value
        = (processValidBuffer F d frames channels sampleRate ref bL bR st minVu maxVu).targetVuR
    ∧ (∀ (data2 : Option (ℕ → ℚ)) (frames2 channels2 : ℕ) (sampleRate2 : ℚ)
         (ref2 : VuReferenceOptions) (bL2 bR2 : VUBallistics) (st2 : VuAudioDspState)
         (minVu2 maxVu2 : ℚ), st2.meterAwake = true →
         (processInterleavedFloatAudioToVuDb F data2 frames2 channels2 sampleRate2 ref2 bL2 bR2 st2 minVu2 maxVu2).state.meterAwake = true) := by
  have hw : st.meterAwake = false ∧
      (0.002 < (processValidBuffer F d frames channels sampleRate ref bL bR st minVu maxVu).rmsL_vu
       ∨ 0.002 < (processValidBuffer F d frames channels sampleRate ref bL bR st minVu maxVu).rmsR_vu) :=
    ⟨hawake, hgate⟩
  refine ⟨?_, ?_, ?_, ?_⟩
  · have hrfl : (processValidBuffer F d frames channels sampleRate ref bL bR st minVu maxVu).state.meterAwake
        = if (st.meterAwake = false ∧
              (0.002 < (processValidBuffer F d frames channels sampleRate ref bL bR st minVu maxVu).rmsL_vu
               ∨ 0.002 < (processValidBuffer F d frames channels sampleRate ref bL bR st minVu maxVu).rmsR_vu))
          then true else st.meterAwake := rfl
    rw [hrfl, if_pos hw]
  · have hrfl : (processValidBuffer F d frames channels sampleRate ref bL bR st minVu maxVu).ballisticsL
        = ((if (st.meterAwake = false ∧
              (0.002 < (processValidBuffer F d frames channels sampleRate ref bL bR st minVu maxVu).rmsL_vu
               ∨ 0.002 < (processValidBuffer F d frames channels sampleRate ref bL bR st minVu maxVu).rmsR_vu))
            then bL.reset (processValidBuffer F d frames channels sampleRate ref bL bR st minVu maxVu).targetVuL
            else bL).process F
            (processValidBuffer F d frames channels sampleRate ref bL bR st minVu maxVu).targetVuL
            (processValidBuffer F d frames channels sampleRate ref bL bR st minVu maxVu).dt).1 := rfl
    rw [hrfl, if_pos hw]
    exact (process_after_reset F bL _ _).1
  · have hrfl : (processValidBuffer F d frames channels sampleRate ref bL bR st minVu maxVu).ballisticsR
        = ((if (st.meterAwake = false ∧
              (0.002 < (processValidBuffer F d frames channels sampleRate ref bL bR st minVu maxVu).rmsL_vu
               ∨ 0.002 < (processValidBuffer F d frames channels sampleRate ref bL bR st minVu maxVu).rmsR_vu))
            then bR.reset (processValidBuffer F d frames channels sampleRate ref bL bR st minVu maxVu).targetVuR
            else bR).process F
            (processValidBuffer F d frames channels sampleRate ref bL bR st minVu maxVu).targetVuR
            (processValidBuffer F d frames channels sampleRate ref bL bR st minVu maxVu).dt).1 := rfl
    rw [hrfl, if_pos hw]
    exact (process_after_reset F bR _ _).1
  · intro data2 frames2 channels2 sampleRate2 ref2 bL2 bR2 st2 minVu2 maxVu2 hm
    exact meterAwake_mono F data2 frames2 channels2 sampleRate2 ref2 bL2 bR2 st2 minVu2 maxVu2 hm

/-- Claim C7, witness: a full-scale buffer on a sleeping zero state
trips the gate, wakes the meter, and snaps the left ballistics to the
target. -/
theorem C7_wake_one_shot_witness :
    zeroState.meterAwake = false
    ∧ (0.002 < (processValidBuffer sampleOps constOneBuffer 1 1 1 sampleRef
          sampleBallistics sampleBallistics zeroState (-96) 6).rmsL_vu
        ∨ 0.002 < (processValidBuffer sampleOps constOneBuffer 1 1 1 sampleRef
            sampleBallistics sampleBallistics zeroState (-96) 6).rmsR_vu)
    ∧ (processValidBuffer sampleOps constOneBuffer 1 1 1 sampleRef
        sampleBallistics sampleBallistics zeroState (-96) 6).state.meterAwake = true
    ∧ (processValidBuffer sampleOps constOneBuffer 1 1 1 sampleRef
        sampleBallistics sampleBallistics zeroState (-96) 6).ballisticsL.value
      = (processValidBuffer sampleOps constOneBuffer 1 1 1 sampleRef
          sampleBallistics sampleBallistics zeroState (-96) 6).targetVuL := by
  have hgate : 0.002 < (processValidBuffer sampleOps constOneBuffer 1 1 1 sampleRef
      sampleBallistics sampleBallistics zeroState (-96) 6).rmsL_vu ∨
      0.002 < (processValidBuffer sampleOps constOneBuffer 1 1 1 sampleRef
        sampleBallistics sampleBallistics zeroState (-96) 6).rmsR_vu := by
    left
    norm_num [processValidBuffer, accumBuffer, accumStep, sampleOps, constOneBuffer, zeroState,
      List.range_succ, effectiveRefDbfs]
  exact ⟨rfl, hgate,
    (C7_wake_one_shot sampleOps constOneBuffer 1 1 1 sampleRef sampleBallistics sampleBallistics
      zeroState (-96) 6 rfl hgate).1,
    (C7_wake_one_shot sampleOps constOneBuffer 1 1 1 sampleRef sampleBallistics sampleBallistics
      zeroState (-96) 6 rfl hgate).2.1⟩

/-- Claim C8: nonnegativity of rmsL_smooth and rmsR_smooth is an
invariant of VuAudioDspState across processInterleavedFloatAudioToVuDb,
for any arguments (given that the float exp routine maps nonpositive
arguments into the interval from 0 to 1, as the real exp does). -/
theorem C8_smoothed_power_nonneg (F : FloatOps)
    (Hexp : ∀ y : ℚ, y ≤ 0 → 0 ≤ F.exp y ∧ F.exp y ≤ 1)
    (data : Option (ℕ → ℚ)) (frames channels : ℕ) (sampleRate : ℚ)
    (ref : VuReferenceOptions) (bL bR : VUBallistics) (st : VuAudioDspState)
    (minVu maxVu : ℚ)
    (hL : 0 ≤ st.rmsL_smooth) (hR : 0 ≤ st.rmsR_smooth) :
    0 ≤ (processInterleavedFloatAudioToVuDb F data frames channels sampleRate ref bL bR st minVu maxVu).state.rmsL_smooth
    ∧ 0 ≤ (processInterleavedFloatAudioToVuDb F data frames channels sampleRate ref bL bR st minVu maxVu).state.rmsR_smooth := by
  cases data with
  | none => exact ⟨hL, hR⟩
  | some d =>
      by_cases hg : frames = 0 ∨ channels = 0 ∨ sampleRate ≤ 0
      · simp only [processInterleavedFloatAudioToVuDb, if_pos hg]
        exact ⟨hL, hR⟩
      · push_neg at hg
        obtain ⟨hf, hc, hs⟩ := hg
        have hg2 : ¬ (frames = 0 ∨ channels = 0 ∨ sampleRate ≤ 0) := by
          rintro (h | h | h)
          · exact hf h
          · exact hc h
          · exact absurd h (not_le.mpr hs)
        rw [wrapper_valid_eq F d frames channels sampleRate ref bL bR st minVu maxVu hg2]
        have hdt : (processValidBuffer F d frames channels sampleRate ref bL bR st minVu maxVu).dt
            = min ((frames : ℚ) / sampleRate) 0.050 := rfl
        have hdtpos : 0 < (processValidBuffer F d frames channels sampleRate ref bL bR st minVu maxVu).dt := by
          rw [hdt]
          exact lt_min (div_pos (by exact_mod_cast Nat.pos_of_ne_zero hf) hs) (by norm_num)
        have halpha : (processValidBuffer F d frames channels sampleRate ref bL bR st minVu maxVu).alpha
            = F.exp (-((processValidBuffer F d frames channels sampleRate ref bL bR st minVu maxVu).dt / 0.020)) := rfl
        have hbounds := Hexp (-((processValidBuffer F d frames channels sampleRate ref bL bR st minVu maxVu).dt / 0.020))
          (neg_nonpos.mpr (le_of_lt (div_pos hdtpos (by norm_num))))
        rw [← halpha] at hbounds
        constructor
        · have hrfl : (processValidBuffer F d frames channels sampleRate ref bL bR st minVu maxVu).state.rmsL_smooth
              = (processValidBuffer F d frames channels sampleRate ref bL bR st minVu maxVu).alpha
                  * (if 0.002 < (processValidBuffer F d frames channels sampleRate ref bL bR st minVu maxVu).rmsL
                     then (processValidBuffer F d frames channels sampleRate ref bL bR st minVu maxVu).rmsL
                       * (processValidBuffer F d frames channels sampleRate ref bL bR st minVu maxVu).rmsL
                     else st.rmsL_smooth)
                + (1 - (processValidBuffer F d frames channels sampleRate ref bL bR st minVu maxVu).alpha)
                  * ((processValidBuffer F d frames channels sampleRate ref bL bR st minVu maxVu).rmsL
                     * (processValidBuffer F d frames channels sampleRate ref bL bR st minVu maxVu).rmsL) := rfl
          rw [hrfl]
          have hs1 : 0 ≤ (if 0.002 < (processValidBuffer F d frames channels sampleRate ref bL bR st minVu maxVu).rmsL
              then (processValidBuffer F d frames channels sampleRate ref bL bR st minVu maxVu).rmsL
                * (processValidBuffer F d frames channels sampleRate ref bL bR st minVu maxVu).rmsL
              else st.rmsL_smooth) := by
            split_ifs
            · exact mul_self_nonneg _
            · exact hL
          exact add_nonneg (mul_nonneg hbounds.1 hs1)
            (mul_nonneg (by linarith [hbounds.2]) (mul_self_nonneg _))
        · have hrfl : (processValidBuffer F d frames channels sampleRate ref bL bR st minVu maxVu).state.rmsR_smooth
              = (processValidBuffer F d frames channels sampleRate ref bL bR st minVu maxVu).alpha
                  * (if 0.002 < (processValidBuffer F d frames channels sampleRate ref bL bR st minVu maxVu).rmsR
                     then (processValidBuffer F d frames channels sampleRate ref bL bR st minVu maxVu).rmsR
                       * (processValidBuffer F d frames channels sampleRate ref bL bR st minVu maxVu).rmsR
                     else st.rmsR_smooth)
                + (1 - (processValidBuffer F d frames channels sampleRate ref bL bR st minVu maxVu).alpha)
                  * ((processValidBuffer F d frames channels sampleRate ref bL bR st minVu maxVu).rmsR
                     * (processValidBuffer F d frames channels sampleRate ref bL bR st minVu maxVu).rmsR) := rfl
          rw [hrfl]
          have hs1 : 0 ≤ (if 0.002 < (processValidBuffer F d frames channels sampleRate ref bL bR st minVu maxVu).rmsR
              then (processValidBuffer F d frames channels sampleRate ref bL bR st minVu maxVu).rmsR
                * (processValidBuffer F d frames channels sampleRate ref bL bR st minVu maxVu).rmsR
              else st.rmsR_smooth) := by
            split_ifs
            · exact mul_self_nonneg _
            · exact hR
          exact add_nonneg (mul_nonneg hbounds.1 hs1)
            (mul_nonneg (by linarith [hbounds.2]) (mul_self_nonneg _))

/-- Claim C8, witness: the invariant holds across a concrete call
starting from the zero state. -/
theorem C8_smoothed_power_nonneg_witness :
    0 ≤ (processInterleavedFloatAudioToVuDb sampleOps (some constOneBuffer) 1 1 1 sampleRef
        sampleBallistics sampleBallistics zeroState (-96) 6).state.rmsL_smooth
    ∧ 0 ≤ (processInterleavedFloatAudioToVuDb sampleOps (some constOneBuffer) 1 1 1 sampleRef
        sampleBallistics sampleBallistics zeroState (-96) 6).state.rmsR_smooth :=
  C8_smoothed_power_nonneg sampleOps (fun y _ => by norm_num [sampleOps]) (some constOneBuffer)
    1 1 1 sampleRef sampleBallistics sampleBallistics zeroState (-96) 6
    (by norm_num [zeroState]) (by norm_num [zeroState])

/-- Claim C9: for every valid call with channels = 1, the left and right
channels are fed identical samples, so if the left and right components
of the DSP state are equal and both ballistics instances start equal,
then outVuL equals outVuR. -/
theorem C9_mono_duplication (F : FloatOps) (d : ℕ → ℚ) (frames channels : ℕ) (sampleRate : ℚ)
    (ref : VuReferenceOptions) (bL bR : VUBallistics) (st : VuAudioDspState)
    (minVu maxVu : ℚ)
    (hch : channels = 1) (h1 : frames ≠ 0) (h3 : 0 < sampleRate)
    (hp : st.prevL = st.prevR) (hs : st.rmsL_smooth = st.rmsR_smooth) (hb : bL = bR) :
    (processInterleavedFloatAudioToVuDb F (some d) frames channels sampleRate ref bL bR st minVu maxVu).outVuL
      = (processInterleavedFloatAudioToVuDb F (some d) frames channels sampleRate ref bL bR st minVu maxVu).outVuR := by
  subst hch
  subst hb
  have hg : ¬ (frames = 0 ∨ (1 : ℕ) = 0 ∨ sampleRate ≤ 0) := by
    rintro (h | h | h)
    · exact h1 h
    · exact absurd h (by norm_num)
    · exact absurd h (not_le.mpr h3)
  rw [wrapper_valid_eq F d frames 1 sampleRate ref bL bL st minVu maxVu hg]
  show (processValidBuffer F d frames 1 sampleRate ref bL bL st minVu maxVu).outVuL
      = (processValidBuffer F d frames 1 sampleRate ref bL bL st minVu maxVu).outVuR
  have hacc := accum_symm d (List.range frames) ⟨st.prevL, st.prevR, 0, 0⟩ hp rfl
  have haccB : (accumBuffer d frames 1 st.prevL st.prevR).sumL
      = (accumBuffer d frames 1 st.prevL st.prevR).sumR := hacc.2
  simp only [processValidBuffer]
  rw [haccB, hs]

/-- Claim C9, witness: a concrete mono call yields equal outputs. -/
theorem C9_mono_duplication_witness :
    (processInterleavedFloatAudioToVuDb sampleOps (some constOneBuffer) 1 1 1 sampleRef
        sampleBallistics sampleBallistics zeroState (-96) 6).outVuL
      = (processInterleavedFloatAudioToVuDb sampleOps (some constOneBuffer) 1 1 1 sampleRef
          sampleBallistics sampleBallistics zeroState (-96) 6).outVuR :=
  C9_mono_duplication sampleOps constOneBuffer 1 1 1 sampleRef sampleBallistics sampleBallistics
    zeroState (-96) 6 rfl (by norm_num) (by norm_num) rfl rfl rfl

/-- Claim C10, counterexample: for a table that is not sorted ascending,
the bracketing search can still find a segment — it does not fall through
to the last angle.  On the unsorted table [(0,0),(10,10),(5,5),(20,20)]
at input 12, the loop finds the bracketing pair ((5,5),(20,20)) and
returns the interpolated 12, not the last angle 20. -/
theorem C10_unsorted_still_finds_segment :
    ¬ List.Chain' (fun a b : ℚ × ℚ => a.1 < b.1)
        ([(0, 0), (10, 10), (5, 5), (20, 20)] : VUMeterScaleTable)
    ∧ vuToAngleDeg 12 [(0, 0), (10, 10), (5, 5), (20, 20)] = 12
    ∧ (12 : ℚ) ≠ 20 := by
  refine ⟨by norm_num [List.chain'_cons], by norm_num [vuToAngleDeg, findSegmentAngle], by norm_num⟩

/-- Claim C10, amended: for every non-empty table (sorted or not),
vuToAngleDeg always returns a value read off the table itself: the first
angle, the last angle (which is also the value of the loop fall-through
guarding inputs bracketed by no segment, such as NaN in the float
implementation), or the linear interpolation over an adjacent pair that
brackets the input.  In particular it never reads outside the table and
never fails. -/
theorem C10_total_from_table (v : ℚ) (table : VUMeterScaleTable) (p : ℚ × ℚ) (rest : List (ℚ × ℚ))
    (htab : table = p :: rest) :
    vuToAngleDeg v table = p.2
    ∨ vuToAngleDeg v table = ((p :: rest).getLast (List.cons_ne_nil p rest)).2
    ∨ ∃ pq ∈ table.zip table.tail, pq.1.1 ≤ v ∧ v ≤ pq.2.1 ∧
        vuToAngleDeg v table =
          pq.1.2 + (v - pq.1.1) / (pq.2.1 - pq.1.1) * (pq.2.2 - pq.1.2) := by
  subst htab
  by_cases hle : v ≤ p.1
  · exact Or.inl (by simp [vuToAngleDeg, hle])
  by_cases hge : ((p :: rest).getLast (List.cons_ne_nil p rest)).1 ≤ v
  · exact Or.inr (Or.inl (by simp [vuToAngleDeg, hle, hge]))
  have hstep : vuToAngleDeg v (p :: rest) = findSegmentAngle v (p :: rest)
      (((p :: rest).getLast (List.cons_ne_nil p rest)).2) := by simp [vuToAngleDeg, hle, hge]
  rcases findSegmentAngle_cases v (p :: rest)
      (((p :: rest).getLast (List.cons_ne_nil p rest)).2) with h | ⟨pq, hmem, ha, hb, heq⟩
  · exact Or.inr (Or.inl (hstep.trans h))
  · exact Or.inr (Or.inr ⟨pq, hmem, ha, hb, hstep.trans heq⟩)

/-- Claim C10, witness: the characterization instantiated on a concrete
two-point table. -/
theorem C10_total_from_table_witness :
    vuToAngleDeg 7 [(0, 0), (10, 10)] = ((0 : ℚ), (0 : ℚ)).2
    ∨ vuToAngleDeg 7 [(0, 0), (10, 10)]
        = ((((0 : ℚ), (0 : ℚ)) :: [((10 : ℚ), (10 : ℚ))]).getLast
            (List.cons_ne_nil ((0 : ℚ), (0 : ℚ)) [((10 : ℚ), (10 : ℚ))])).2
    ∨ ∃ pq ∈ ([(0, 0), (10, 10)] : VUMeterScaleTable).zip ([(0, 0), (10, 10)] : VUMeterScaleTable).tail,
        pq.1.1 ≤ 7 ∧ (7 : ℚ) ≤ pq.2.1 ∧
        vuToAngleDeg 7 [(0, 0), (10, 10)] =
          pq.1.2 + (7 - pq.1.1) / (pq.2.1 - pq.1.1) * (pq.2.2 - pq.1.2) :=
  C10_total_from_table 7 [(0, 0), (10, 10)] (0, 0) [(10, 10)] rfl
